import Mathlib

/-!
Shallow embedding of the build controller (pkg/build/controller/controller.go):
four reconcilers driving a build status state machine from pod events.
Collaborator interfaces (PodManager, ImageStreamClient, BuildStrategy,
BuildUpdater, BuildStore) are modelled as records of pure functions supplied
by the environment; each handler returns its (optional error message, the
possibly mutated build, and an `Effects` record of the collaborator calls it
made). Timestamps are abstract instants (`Nat`); `util.Now()` becomes an
explicit `now` parameter.
-/

namespace BuildController

/-- Build status enumeration (buildapi.BuildStatus*): the closed seven-value
set New, Pending, Running, Complete, Failed, Error, Cancelled. -/
inductive BuildStatus where
  | new
  | pending
  | running
  | complete
  | failed
  | error
  | cancelled
deriving DecidableEq, Repr

/-- Reference to an image stream (build.Parameters.Output.To): a namespace
(possibly empty, defaulting to the build's) and a name. -/
structure ObjectRef where
  nspace : String
  name : String
deriving DecidableEq, Repr

/-- build.Parameters.Output: a literal docker image reference, an optional
image-stream reference, and an optional tag (empty string = absent). -/
structure BuildOutput where
  dockerImageReference : String
  toRef : Option ObjectRef
  tag : String
deriving DecidableEq, Repr

/-- The build resource: identity, status, cancellation flag, output
destination, message and the two optional timestamps. -/
structure Build where
  name : String
  nspace : String
  status : BuildStatus
  cancelled : Bool
  output : BuildOutput
  message : String
  startTimestamp : Option Nat
  completionTimestamp : Option Nat
deriving DecidableEq, Repr

/-- Container termination info (kapi.ContainerStateTerminated): exit code. -/
structure Termination where
  exitCode : Int
deriving DecidableEq, Repr

/-- kapi.ContainerState: optional termination info. -/
structure ContainerState where
  termination : Option Termination
deriving DecidableEq, Repr

/-- kapi.ContainerStatus: the container's state. -/
structure ContainerStatus where
  state : ContainerState
deriving DecidableEq, Repr

/-- kapi.PodPhase. -/
inductive PodPhase where
  | pending
  | running
  | succeeded
  | failed
  | unknown
deriving DecidableEq, Repr

/-- The pod resource: identity, labels (Go map, absent key → ""), phase and
per-container statuses. -/
structure Pod where
  name : String
  nspace : String
  labels : List (String × String)
  phase : PodPhase
  containerStatuses : List ContainerStatus
deriving DecidableEq, Repr

/-- An image stream's status: the resolved backing repository
(repo.Status.DockerImageRepository), empty when unset. -/
structure ImageStream where
  dockerImageRepository : String
deriving DecidableEq, Repr

/-- Go map indexing pod.Labels[key]: the zero value "" when absent. -/
def getLabel (labels : List (String × String)) (key : String) : String :=
  match labels.find? (fun p => p.1 == key) with
  | some p => p.2
  | none => ""

/-- Modelled from the spec: `buildapi.BuildLabel` is not under src/. The spec's
correlation convention is a label on the pod "whose value equals the build
name"; the key itself is an opaque constant. -/
def BuildLabel : String := "build"

/-- Modelled from the spec: `buildutil.GetBuildPodName` is not under src/. The
spec's correlation convention says "pod name == build name". -/
def GetBuildPodName (build : Build) : String := build.name

/-- Modelled from the spec: `buildutil.IsBuildComplete` is not under src/. The
spec defines the terminal statuses as "Complete, Failed, Error, or Cancelled —
no further transitions permitted". -/
def IsBuildComplete (build : Build) : Bool :=
  build.status == BuildStatus.complete || build.status == BuildStatus.failed ||
    build.status == BuildStatus.error || build.status == BuildStatus.cancelled

/-- Result of podManager.CreatePod: the new pod, an AlreadyExists error, or
another error. -/
inductive CreatePodResult where
  | created
  | alreadyExists
  | otherError (msg : String)
deriving Repr

/-- Result of podManager.DeletePod: success, a NotFound error, or another
error. -/
inductive DeletePodResult where
  | ok
  | notFound
  | otherError (msg : String)
deriving Repr

/-- Result of podManager.GetPod: a pod, nil-if-absent, or an error. -/
inductive GetPodResult where
  | found (pod : Pod)
  | absent
  | err (msg : String)
deriving Repr

/-- Result of imageStreamClient.GetImageStream: the stream, a NotFound error,
or another error. -/
inductive GetImageStreamResult where
  | found (stream : ImageStream)
  | notFound
  | otherError (msg : String)
deriving Repr

/-- Result of BuildStrategy.CreateBuildPod: a pod spec or an error. -/
inductive StrategyResult where
  | ok (podSpec : Pod)
  | err (msg : String)
deriving Repr

/-- Result of BuildUpdater.Update. -/
inductive UpdateResult where
  | ok
  | err (msg : String)
deriving Repr

/-- Result of BuildStore.Get keyed by a pod: (obj, exists, err). -/
inductive StoreGetResult where
  | found (build : Build)
  | absent
  | err (msg : String)
deriving Repr

/-- The observable collaborator calls a handler made: every build passed to
BuildUpdater.Update, every build passed to BuildStrategy.CreateBuildPod,
counts of pod-creation attempts and successes, pod-deletion attempts and
successes, and recorded events. -/
structure Effects where
  updates : List Build := []
  strategyCalls : List Build := []
  createAttempts : Nat := 0
  podsCreated : Nat := 0
  deleteAttempts : Nat := 0
  podsDeleted : Nat := 0
  events : Nat := 0
deriving DecidableEq, Repr

/-- Collaborators of BuildController (admission reconciler). -/
structure AdmissionEnv where
  getImageStream : String → String → GetImageStreamResult
  createBuildPod : Build → StrategyResult
  createPod : String → Pod → CreatePodResult
  update : String → Build → UpdateResult

/-- Lines 96-100: the final reference is `repository` when no tag is given,
`repository:tag` otherwise. -/
def composeSpec (repository tag : String) : String :=
  if tag.length = 0 then repository else repository ++ ":" ++ tag

/-- Lines 77-101 of nextBuildStatus: look up the destination from the
referenced image repository. Without a reference, the literal
DockerImageReference; with one, resolve the stream (NotFound and other
fetch failures are errors, as is an empty resolved repository) and compose
repository / repository:tag. -/
def resolveOutputSpec (env : AdmissionEnv) (build : Build) : Except String String :=
  match build.output.toRef with
  | none => Except.ok build.output.dockerImageReference
  | some ref =>
    let ns := if ref.nspace.length = 0 then build.nspace else ref.nspace
    match env.getImageStream ns ref.name with
    | GetImageStreamResult.notFound =>
      Except.error ("the referenced output image stream " ++ ns ++ "/" ++ ref.name ++ " does not exist")
    | GetImageStreamResult.otherError e =>
      Except.error ("the referenced output image stream " ++ ns ++ "/" ++ ref.name ++
        " could not be found by build " ++ build.nspace ++ "/" ++ build.name ++ ": " ++ e)
    | GetImageStreamResult.found repo =>
      if repo.dockerImageRepository.length = 0 then
        Except.error ("the image stream " ++ ns ++ "/" ++ ref.name ++
          " cannot be used as the output for build " ++ build.nspace ++ "/" ++ build.name ++
          " because the integrated Docker registry is not configured, or the user forgot to set a valid external registry")
      else
        Except.ok (composeSpec repo.dockerImageRepository build.output.tag)

/-- Lines 104-106: set the expected build parameters — status Pending and the
resolved reference written into the output. -/
def admitBuild (build : Build) (spec : String) : Build :=
  { build with
      status := BuildStatus.pending
      output := { build.output with dockerImageReference := spec } }

/-- nextBuildStatus (lines 69-132): cancel a flagged build; otherwise resolve
the output destination, set status Pending, copy the build (a value copy —
immutable values need no failure case), invoke the strategy, create the pod
(AlreadyExists tolerated as success, other failures recorded as an event and
returned). -/
def nextBuildStatus (env : AdmissionEnv) (build : Build) :
    Option String × Build × Effects :=
  if build.cancelled then
    (none, { build with status := BuildStatus.cancelled }, {})
  else
    match resolveOutputSpec env build with
    | Except.error e => (some e, build, {})
    | Except.ok spec =>
      match env.createBuildPod (admitBuild build spec) with
      | StrategyResult.err e =>
        (some ("the strategy failed to create a build pod for " ++ build.nspace ++ "/" ++
            build.name ++ ": " ++ e),
          admitBuild build spec, { strategyCalls := [admitBuild build spec] })
      | StrategyResult.ok podSpec =>
        match env.createPod build.nspace podSpec with
        | CreatePodResult.alreadyExists =>
          (none, admitBuild build spec,
            { strategyCalls := [admitBuild build spec], createAttempts := 1 })
        | CreatePodResult.otherError e =>
          (some ("failed to create pod for build " ++ build.nspace ++ "/" ++ build.name ++ ": " ++ e),
            admitBuild build spec,
            { strategyCalls := [admitBuild build spec], createAttempts := 1, events := 1 })
        | CreatePodResult.created =>
          (none, admitBuild build spec,
            { strategyCalls := [admitBuild build spec], createAttempts := 1, podsCreated := 1 })

/-- HandleBuild (lines 44-64): only builds in status New are handled; a
nextBuildStatus failure is propagated; the final persist is recorded in the
effects and its result is ignored (failure logged, never propagated), so the
handler's outcome does not depend on it. -/
def HandleBuild (env : AdmissionEnv) (build : Build) :
    Option String × Build × Effects :=
  if build.status ≠ BuildStatus.new then
    (none, build, {})
  else
    match nextBuildStatus env build with
    | (some e, b, eff) =>
      (some ("Build failed with error " ++ b.nspace ++ "/" ++ b.name ++ ": " ++ e), b, eff)
    | (none, b, eff) =>
      (none, b, { eff with updates := eff.updates ++ [b] })

/-- Collaborators of BuildPodController and BuildPodDeleteController: the
build store (keyed lookup by the pod), the build updater and the pod
manager's delete. -/
structure PodEnv where
  storeGet : Pod → StoreGetResult
  update : String → Build → UpdateResult
  deletePod : String → Pod → DeletePodResult

/-- isBuildCancellable (lines 224-226): the build has New, Pending or Running
status. -/
def isBuildCancellable (build : Build) : Bool :=
  build.status == BuildStatus.new || build.status == BuildStatus.pending ||
    build.status == BuildStatus.running

/-- Lines 212-214: the build with status Cancelled and CompletionTimestamp
stamped at now. -/
def cancelledBuild (build : Build) (now : Nat) : Build :=
  { build with
      status := BuildStatus.cancelled
      completionTimestamp := some now }

/-- CancelBuild (lines 201-221): no-op unless cancellable; delete the pod
(NotFound tolerated as success — the two tolerated arms are written out —
other failure returned); set status Cancelled, stamp CompletionTimestamp,
persist (failure returned). -/
def CancelBuild (env : PodEnv) (build : Build) (pod : Pod) (now : Nat) :
    Option String × Build × Effects :=
  if ¬ isBuildCancellable build then
    (none, build, {})
  else
    match env.deletePod build.nspace pod with
    | DeletePodResult.otherError e => (some e, build, { deleteAttempts := 1 })
    | DeletePodResult.ok =>
      match env.update build.nspace (cancelledBuild build now) with
      | UpdateResult.err e =>
        (some e, cancelledBuild build now,
          { deleteAttempts := 1, podsDeleted := 1, updates := [cancelledBuild build now] })
      | UpdateResult.ok =>
        (none, cancelledBuild build now,
          { deleteAttempts := 1, podsDeleted := 1, updates := [cancelledBuild build now] })
    | DeletePodResult.notFound =>
      match env.update build.nspace (cancelledBuild build now) with
      | UpdateResult.err e =>
        (some e, cancelledBuild build now,
          { deleteAttempts := 1, updates := [cancelledBuild build now] })
      | UpdateResult.ok =>
        (none, cancelledBuild build now,
          { deleteAttempts := 1, updates := [cancelledBuild build now] })

/-- Lines 174-179: the loop over pod.Status.ContainerStatuses — some container
terminated with a nonzero exit code. -/
def podNonzeroExit (pod : Pod) : Bool :=
  pod.containerStatuses.any fun info =>
    match info.state.termination with
    | some t => t.exitCode != 0
    | none => false

/-- Lines 165-180: the next status computed from the pod phase — Running for a
running pod, Complete/Failed by exit codes for a finished pod, otherwise the
current status. -/
def podNextStatus (build : Build) (pod : Pod) : BuildStatus :=
  match pod.phase with
  | PodPhase.running => BuildStatus.running
  | PodPhase.succeeded =>
    if podNonzeroExit pod then BuildStatus.failed else BuildStatus.complete
  | PodPhase.failed =>
    if podNonzeroExit pod then BuildStatus.failed else BuildStatus.complete
  | _ => build.status

/-- HandlePod (lines 141-198): look up the correlated build (lookup error
propagated, none found → no-op); a cancelled build is delegated to
CancelBuild; otherwise compute the next status from the pod phase and, only
when it differs, set it, stamp CompletionTimestamp on a now-complete build
and StartTimestamp on a now-running build, and persist (failure returned).
The second component is the correlated build after any mutation, none when
no build was found. -/
def HandlePod (env : PodEnv) (pod : Pod) (now : Nat) :
    Option String × Option Build × Effects :=
  match env.storeGet pod with
  | StoreGetResult.err e => (some e, none, {})
  | StoreGetResult.absent => (none, none, {})
  | StoreGetResult.found build =>
    if build.cancelled then
      match CancelBuild env build pod now with
      | (some e, b, eff) =>
        (some ("Failed to cancel build " ++ b.name ++ ": " ++ e ++ ", will retry"), some b, eff)
      | (none, b, eff) => (none, some b, eff)
    else
      let nextStatus := podNextStatus build pod
      if build.status ≠ nextStatus then
        let build := { build with status := nextStatus }
        let build :=
          if IsBuildComplete build then { build with completionTimestamp := some now } else build
        let build :=
          if build.status = BuildStatus.running then { build with startTimestamp := some now }
          else build
        match env.update build.nspace build with
        | UpdateResult.err e =>
          (some ("Failed to update build " ++ build.name ++ ": " ++ e), some build,
            { updates := [build] })
        | UpdateResult.ok => (none, some build, { updates := [build] })
      else
        (none, some build, {})

/-- HandleBuildPodDeletion (lines 234-269): look up the correlated build
(lookup error propagated, none found → no-op); no-op when the build is
already complete; otherwise set status Error, the pod-vanished message and
the completion timestamp, and persist (failure returned). -/
def HandleBuildPodDeletion (env : PodEnv) (pod : Pod) (now : Nat) :
    Option String × Option Build × Effects :=
  match env.storeGet pod with
  | StoreGetResult.err e => (some e, none, {})
  | StoreGetResult.absent => (none, none, {})
  | StoreGetResult.found build =>
    if IsBuildComplete build then
      (none, some build, {})
    else
      let nextStatus := BuildStatus.error
      if build.status ≠ nextStatus then
        let build := { build with
            status := nextStatus
            message := "The Pod for this Build was deleted before the Build completed."
            completionTimestamp := some now }
        match env.update build.nspace build with
        | UpdateResult.err e =>
          (some ("Failed to update build " ++ build.name ++ ": " ++ e), some build,
            { updates := [build] })
        | UpdateResult.ok => (none, some build, { updates := [build] })
      else
        (none, some build, {})

/-- Collaborators of BuildDeleteController. -/
structure DeleteEnv where
  getPod : String → String → GetPodResult
  deletePod : String → Pod → DeletePodResult

/-- HandleBuildDeletion (lines 276-298): look up the pod under the build's pod
name (lookup error propagated, nil pod → no-op); skip a pod whose build label
does not match the build's name; otherwise delete it, propagating any
deletion failure. -/
def HandleBuildDeletion (env : DeleteEnv) (build : Build) :
    Option String × Effects :=
  let podName := GetBuildPodName build
  match env.getPod build.nspace podName with
  | GetPodResult.err e => (some e, {})
  | GetPodResult.absent => (none, {})
  | GetPodResult.found pod =>
    if getLabel pod.labels BuildLabel ≠ build.name then
      (none, {})
    else
      match env.deletePod build.nspace pod with
      | DeletePodResult.ok => (none, { deleteAttempts := 1, podsDeleted := 1 })
      | DeletePodResult.notFound =>
        (some ("pod " ++ build.nspace ++ "/" ++ podName ++ " not found"), { deleteAttempts := 1 })
      | DeletePodResult.otherError e => (some e, { deleteAttempts := 1 })

/-! Concrete fixtures used by witnesses and counterexamples. -/

/-- A literal output destination with no image-stream reference. -/
def sampleOutput : BuildOutput :=
  { dockerImageReference := "centos/ruby", toRef := none, tag := "" }

/-- A build b1 in namespace ns at the given status, not cancelled, without
timestamps. -/
def sampleBuild (s : BuildStatus) : Build :=
  { name := "b1", nspace := "ns", status := s, cancelled := false, output := sampleOutput,
    message := "", startTimestamp := none, completionTimestamp := none }

/-- The pod correlated to b1 (same name, correlating label) at the given
phase, with no container statuses. -/
def samplePod (phase : PodPhase) : Pod :=
  { name := "b1", nspace := "ns", labels := [(BuildLabel, "b1")], phase := phase,
    containerStatuses := [] }

/-- An admission environment in which every collaborator call succeeds. -/
def sampleAdmissionEnv : AdmissionEnv :=
  { getImageStream := fun _ _ =>
      GetImageStreamResult.found { dockerImageRepository := "registry:5000/ns/is1" },
    createBuildPod := fun _ => StrategyResult.ok (samplePod PodPhase.pending),
    createPod := fun _ _ => CreatePodResult.created,
    update := fun _ _ => UpdateResult.ok }

/-- A pod environment whose store holds the running b1 and whose collaborator
calls succeed. -/
def samplePodEnv : PodEnv :=
  { storeGet := fun _ => StoreGetResult.found (sampleBuild BuildStatus.running),
    update := fun _ _ => UpdateResult.ok,
    deletePod := fun _ _ => DeletePodResult.ok }

/-! Claims. -/

/-- Claim C4: for every build whose status is not New, HandleBuild is a
no-op — no error, the build unchanged, and the empty effects record (no pod
created, no strategy call, no persistence call, no event). -/
theorem C4_nonNew_noop (env : AdmissionEnv) (build : Build)
    (h : build.status ≠ BuildStatus.new) :
    HandleBuild env build = (none, build, ({} : Effects)) := by
  unfold HandleBuild
  simp [h]

/-- Witness for C4 at a Pending build. -/
theorem C4_witness :
    (sampleBuild BuildStatus.pending).status ≠ BuildStatus.new ∧
    HandleBuild sampleAdmissionEnv (sampleBuild BuildStatus.pending) =
      (none, sampleBuild BuildStatus.pending, ({} : Effects)) :=
  ⟨by decide,
    C4_nonNew_noop sampleAdmissionEnv (sampleBuild BuildStatus.pending) (by decide)⟩

/-- Claim C7: for every build whose status is not in {New, Pending, Running},
CancelBuild is a no-op — no error, no pod-deletion attempt, no persistence
call, the build unchanged. -/
theorem C7_notCancellable_noop (env : PodEnv) (build : Build) (pod : Pod) (now : Nat)
    (h1 : build.status ≠ BuildStatus.new) (h2 : build.status ≠ BuildStatus.pending)
    (h3 : build.status ≠ BuildStatus.running) :
    CancelBuild env build pod now = (none, build, ({} : Effects)) := by
  have h : isBuildCancellable build = false := by
    unfold isBuildCancellable
    cases hb : build.status <;> simp_all
  unfold CancelBuild
  simp [h]

/-- Witness for C7 at a Complete build. -/
theorem C7_witness :
    CancelBuild samplePodEnv (sampleBuild BuildStatus.complete) (samplePod PodPhase.running) 3 =
      (none, sampleBuild BuildStatus.complete, ({} : Effects)) :=
  C7_notCancellable_noop samplePodEnv (sampleBuild BuildStatus.complete)
    (samplePod PodPhase.running) 3 (by decide) (by decide) (by decide)

/-- nextBuildStatus never calls BuildUpdater.Update: every branch records an
empty updates list. -/
theorem nextBuildStatus_updates_nil (env : AdmissionEnv) (build : Build) :
    (nextBuildStatus env build).2.2.updates = [] := by
  unfold nextBuildStatus
  repeat' split
  all_goals rfl

/-- Claim C10: whenever HandleBuild returns an error, it has made no
persistence call — BuildUpdater.Update was never invoked, so the stored
build is unchanged and still observable in status New. -/
theorem C10_error_no_persist (env : AdmissionEnv) (build : Build) (e : String)
    (h : (HandleBuild env build).1 = some e) :
    (HandleBuild env build).2.2.updates = [] := by
  have hnil := nextBuildStatus_updates_nil env build
  by_cases hs : build.status = BuildStatus.new
  · rcases hr : nextBuildStatus env build with ⟨oe, b, eff⟩
    rw [hr] at hnil
    unfold HandleBuild at h ⊢
    rw [hr] at h ⊢
    rcases oe with _ | e₀
    · simp [hs] at h
    · simpa [hs] using hnil
  · unfold HandleBuild at h
    simp [hs] at h

end BuildController

namespace BuildController

/-- An admission environment whose strategy fails. -/
def c10Env : AdmissionEnv :=
  { sampleAdmissionEnv with createBuildPod := fun _ => StrategyResult.err "boom" }

/-- Witness for C10: a New build whose strategy fails yields an error and an
empty updates list. -/
theorem C10_witness :
    (HandleBuild c10Env (sampleBuild BuildStatus.new)).1 =
      some ("Build failed with error ns/b1: the strategy failed to create a build pod for ns/b1: boom") ∧
    (HandleBuild c10Env (sampleBuild BuildStatus.new)).2.2.updates = [] :=
  ⟨rfl, C10_error_no_persist c10Env (sampleBuild BuildStatus.new) _ rfl⟩

/-- Claim C3: on a New, non-cancelled build whose output resolves and whose
strategy succeeds, a pod-creation result of AlreadyExists is treated as
success — HandleBuild returns no error and no new pod is created, so the
pod created by the first delivery remains the only one. -/
theorem C3_alreadyExists_idempotent (env : AdmissionEnv) (build : Build)
    (spec : String) (podSpec : Pod)
    (hnew : build.status = BuildStatus.new)
    (hnc : build.cancelled = false)
    (hres : resolveOutputSpec env build = Except.ok spec)
    (hstrat : env.createBuildPod (admitBuild build spec) = StrategyResult.ok podSpec)
    (hcreate : env.createPod build.nspace podSpec = CreatePodResult.alreadyExists) :
    (HandleBuild env build).1 = none ∧
    (HandleBuild env build).2.2.podsCreated = 0 := by
  unfold HandleBuild nextBuildStatus
  simp [hnew, hnc, hres, hstrat, hcreate]

/-- An admission environment whose pod creation reports AlreadyExists. -/
def c3Env : AdmissionEnv :=
  { sampleAdmissionEnv with createPod := fun _ _ => CreatePodResult.alreadyExists }

/-- Witness for C3 on the New b1 under an environment whose pod creation
reports AlreadyExists. -/
theorem C3_witness :
    (HandleBuild c3Env (sampleBuild BuildStatus.new)).1 = none ∧
    (HandleBuild c3Env (sampleBuild BuildStatus.new)).2.2.podsCreated = 0 :=
  C3_alreadyExists_idempotent c3Env (sampleBuild BuildStatus.new)
    "centos/ruby" (samplePod PodPhase.pending) rfl rfl rfl rfl rfl

/-- HandlePod on a found, non-cancelled build always reports the status
computed from the pod phase (unchanged statuses included). -/
theorem handlePod_status_characterisation (env : PodEnv) (pod : Pod) (build : Build) (now : Nat)
    (hget : env.storeGet pod = StoreGetResult.found build)
    (hnc : build.cancelled = false) :
    (HandlePod env pod now).2.1.map Build.status = some (podNextStatus build pod) := by
  unfold HandlePod
  rw [hget]
  simp only [hnc, Bool.false_eq_true, if_false]
  by_cases hchg : build.status = podNextStatus build pod
  · simp [hchg]
  · simp only [ne_eq, hchg, not_false_iff, if_true]
    repeat' split
    all_goals simp_all [IsBuildComplete]

/-- Claim C5: for a pod in phase Succeeded or Failed whose correlated build is
found with the cancellation flag unset, HandlePod yields build status Failed
when some container terminated with a nonzero exit code and Complete
otherwise. -/
theorem C5_finished_pod_status (env : PodEnv) (pod : Pod) (build : Build) (now : Nat)
    (hget : env.storeGet pod = StoreGetResult.found build)
    (hnc : build.cancelled = false)
    (hphase : pod.phase = PodPhase.succeeded ∨ pod.phase = PodPhase.failed) :
    (HandlePod env pod now).2.1.map Build.status =
      some (if podNonzeroExit pod then BuildStatus.failed else BuildStatus.complete) := by
  have h := handlePod_status_characterisation env pod build now hget hnc
  rcases hphase with h1 | h1 <;> rw [h] <;> unfold podNextStatus <;> rw [h1]

/-- A pod for b1 in the given phase with a single container terminated at the
given exit code. -/
def c5Pod (phase : PodPhase) (code : Int) : Pod :=
  { samplePod phase with
      containerStatuses := [{ state := { termination := some { exitCode := code } } }] }

/-- Witness for C5: a Succeeded pod with exit code 1 yields Failed; one with
exit code 0 yields Complete. -/
theorem C5_witness :
    (HandlePod samplePodEnv (c5Pod PodPhase.succeeded 1) 4).2.1.map Build.status =
      some BuildStatus.failed ∧
    (HandlePod samplePodEnv (c5Pod PodPhase.succeeded 0) 4).2.1.map Build.status =
      some BuildStatus.complete := by
  constructor
  · have h := C5_finished_pod_status samplePodEnv (c5Pod PodPhase.succeeded 1)
      (sampleBuild BuildStatus.running) 4 rfl rfl (Or.inl rfl)
    simpa [podNonzeroExit, c5Pod, samplePod] using h
  · have h := C5_finished_pod_status samplePodEnv (c5Pod PodPhase.succeeded 0)
      (sampleBuild BuildStatus.running) 4 rfl rfl (Or.inl rfl)
    simpa [podNonzeroExit, c5Pod, samplePod] using h

/-- Claim C6: on a New, non-cancelled build whose output names an image stream
resolving to a backing repository, HandleBuild hands the strategy a build
whose output already carries the composed reference (repository, or
repository:tag when a tag is given) with status Pending, and the resulting
build has that output reference and status Pending. -/
theorem C6_output_resolution (env : AdmissionEnv) (build : Build) (ref : ObjectRef)
    (stream : ImageStream)
    (hnew : build.status = BuildStatus.new)
    (hnc : build.cancelled = false)
    (href : build.output.toRef = some ref)
    (hstream : env.getImageStream (if ref.nspace.length = 0 then build.nspace else ref.nspace)
        ref.name = GetImageStreamResult.found stream)
    (hrepo : stream.dockerImageRepository.length ≠ 0) :
    (HandleBuild env build).2.2.strategyCalls =
      [admitBuild build (composeSpec stream.dockerImageRepository build.output.tag)] ∧
    (HandleBuild env build).2.1.status = BuildStatus.pending ∧
    (HandleBuild env build).2.1.output.dockerImageReference =
      composeSpec stream.dockerImageRepository build.output.tag := by
  have hres : resolveOutputSpec env build =
      Except.ok (composeSpec stream.dockerImageRepository build.output.tag) := by
    unfold resolveOutputSpec
    rw [href]
    simp [hstream, hrepo]
  unfold HandleBuild nextBuildStatus
  rw [hres]
  simp only [hnew, hnc, ne_eq, not_true, Bool.false_eq_true, if_false]
  rcases hcb : env.createBuildPod
      (admitBuild build (composeSpec stream.dockerImageRepository build.output.tag)) with p | e
  · rcases hcp : env.createPod build.nspace p with _ | _ | e2 <;>
      simp [hcb, hcp, admitBuild]
  · simp [hcb, admitBuild]

/-- The spec's worked example: b1 in namespace ns whose output names image
stream is1 with tag v1. -/
def c6Build : Build :=
  { sampleBuild BuildStatus.new with
      output := { dockerImageReference := "",
                  toRef := some ({ nspace := "", name := "is1" } : ObjectRef),
                  tag := "v1" } }

/-- Witness for C6: the spec's example build resolves to
registry:5000/ns/is1:v1, handed to the strategy on a Pending build. -/
theorem C6_witness :
    (HandleBuild sampleAdmissionEnv c6Build).2.2.strategyCalls =
      [admitBuild c6Build "registry:5000/ns/is1:v1"] ∧
    (HandleBuild sampleAdmissionEnv c6Build).2.1.status = BuildStatus.pending ∧
    (HandleBuild sampleAdmissionEnv c6Build).2.1.output.dockerImageReference =
      "registry:5000/ns/is1:v1" := by
  have h := C6_output_resolution sampleAdmissionEnv c6Build
    { nspace := "", name := "is1" } { dockerImageRepository := "registry:5000/ns/is1" }
    rfl rfl rfl rfl (by decide)
  simpa [composeSpec, c6Build] using h

/-- Claim C8: HandleBuildDeletion propagates a pod-lookup error, is an
effect-free no-op without error when no pod is found or when the found pod's
correlating build label names a different build, and attempts a deletion only
when the label equals the build's name. -/
theorem C8_deletion_label_guard (env : DeleteEnv) (build : Build) :
    (∀ e, env.getPod build.nspace (GetBuildPodName build) = GetPodResult.err e →
        HandleBuildDeletion env build = (some e, ({} : Effects))) ∧
    (env.getPod build.nspace (GetBuildPodName build) = GetPodResult.absent →
        HandleBuildDeletion env build = (none, ({} : Effects))) ∧
    (∀ pod, env.getPod build.nspace (GetBuildPodName build) = GetPodResult.found pod →
        getLabel pod.labels BuildLabel ≠ build.name →
        HandleBuildDeletion env build = (none, ({} : Effects))) ∧
    ((HandleBuildDeletion env build).2.deleteAttempts ≠ 0 →
        ∃ pod, env.getPod build.nspace (GetBuildPodName build) = GetPodResult.found pod ∧
          getLabel pod.labels BuildLabel = build.name) := by
  refine ⟨?_, ?_, ?_, ?_⟩
  · intro e he
    simp only [HandleBuildDeletion]
    rw [he]
  · intro ha
    simp only [HandleBuildDeletion]
    rw [ha]
  · intro pod hf hl
    simp only [HandleBuildDeletion]
    rw [hf]
    simp [hl]
  · intro hd
    simp only [HandleBuildDeletion] at hd
    rcases hg : env.getPod build.nspace (GetBuildPodName build) with pod | _ | e
    · rw [hg] at hd
      by_cases hl : getLabel pod.labels BuildLabel = build.name
      · exact ⟨pod, rfl, hl⟩
      · simp [hl] at hd
    · rw [hg] at hd
      simp at hd
    · rw [hg] at hd
      simp at hd

/-- A pod named b1 whose correlating label names a different build b2. -/
def c8PodOther : Pod :=
  { samplePod PodPhase.running with labels := [(BuildLabel, "b2")] }

/-- A deletion environment finding the mislabelled pod. -/
def c8EnvMismatch : DeleteEnv :=
  { getPod := fun _ _ => GetPodResult.found c8PodOther,
    deletePod := fun _ _ => DeletePodResult.ok }

/-- A deletion environment finding the correctly labelled pod. -/
def c8EnvMatch : DeleteEnv :=
  { getPod := fun _ _ => GetPodResult.found (samplePod PodPhase.running),
    deletePod := fun _ _ => DeletePodResult.ok }

/-- Witness for C8: the mislabelled pod is left alone without error, and a
nonzero deletion attempt implies a matching label. -/
theorem C8_witness :
    HandleBuildDeletion c8EnvMismatch (sampleBuild BuildStatus.running) =
      (none, ({} : Effects)) ∧
    (∃ pod, c8EnvMatch.getPod (sampleBuild BuildStatus.running).nspace
        (GetBuildPodName (sampleBuild BuildStatus.running)) = GetPodResult.found pod ∧
      getLabel pod.labels BuildLabel = (sampleBuild BuildStatus.running).name) :=
  ⟨(C8_deletion_label_guard c8EnvMismatch (sampleBuild BuildStatus.running)).2.2.1
      c8PodOther rfl (by decide),
    (C8_deletion_label_guard c8EnvMatch (sampleBuild BuildStatus.running)).2.2.2
      (by decide)⟩

/-- Claim C9: for a deleted pod whose correlated build is found, a build
already in a terminal status is left alone with no error and no effect;
otherwise the resulting build has status Error, the pod-vanished message, a
completion timestamp of now, it is persisted, a persistence failure is
propagated and a persistence success yields no error. -/
theorem C9_pod_loss (env : PodEnv) (pod : Pod) (build : Build) (now : Nat)
    (hget : env.storeGet pod = StoreGetResult.found build) :
    (IsBuildComplete build = true →
        HandleBuildPodDeletion env pod now = (none, some build, ({} : Effects))) ∧
    (IsBuildComplete build = false →
        (HandleBuildPodDeletion env pod now).2.1.map Build.status = some BuildStatus.error ∧
        (HandleBuildPodDeletion env pod now).2.1.map Build.message =
          some "The Pod for this Build was deleted before the Build completed." ∧
        (HandleBuildPodDeletion env pod now).2.1.map Build.completionTimestamp =
          some (some now) ∧
        (HandleBuildPodDeletion env pod now).2.2.updates =
          (HandleBuildPodDeletion env pod now).2.1.toList ∧
        (∀ m, (∀ ns b, env.update ns b = UpdateResult.err m) →
          (HandleBuildPodDeletion env pod now).1 ≠ none) ∧
        ((∀ ns b, env.update ns b = UpdateResult.ok) →
          (HandleBuildPodDeletion env pod now).1 = none)) := by
  constructor
  · intro hc
    unfold HandleBuildPodDeletion
    rw [hget]
    simp [hc]
  · intro hc
    have hne : build.status ≠ BuildStatus.error := by
      unfold IsBuildComplete at hc
      cases hb : build.status <;> simp_all
    unfold HandleBuildPodDeletion
    rw [hget]
    simp only [hc, Bool.false_eq_true, if_false]
    rcases hu : env.update build.nspace
        { build with
            status := BuildStatus.error
            message := "The Pod for this Build was deleted before the Build completed."
            completionTimestamp := some now } with _ | m
    · refine ⟨by simp [hne, hu], by simp [hne, hu], by simp [hne, hu], by simp [hne, hu],
        ?_, by simp [hne, hu]⟩
      intro m hm
      have hx := hm build.nspace
        { build with
            status := BuildStatus.error
            message := "The Pod for this Build was deleted before the Build completed."
            completionTimestamp := some now }
      rw [hu] at hx
      exact absurd hx (by simp)
    · refine ⟨by simp [hne, hu], by simp [hne, hu], by simp [hne, hu], by simp [hne, hu],
        by simp [hne, hu], ?_⟩
      intro hok
      have hx := hok build.nspace
        { build with
            status := BuildStatus.error
            message := "The Pod for this Build was deleted before the Build completed."
            completionTimestamp := some now }
      rw [hu] at hx
      exact absurd hx (by simp)

/-- A pod environment whose store holds the running b1 and whose update
fails. -/
def c9EnvErr : PodEnv :=
  { samplePodEnv with update := fun _ _ => UpdateResult.err "conflict" }

/-- Witness for C9: a Running build whose pod vanishes is marked Error with
the message and a completion timestamp, persisted; under a failing updater
the error is propagated. -/
theorem C9_witness :
    ((HandleBuildPodDeletion samplePodEnv (samplePod PodPhase.running) 6).2.1.map Build.status =
        some BuildStatus.error ∧
      (HandleBuildPodDeletion samplePodEnv (samplePod PodPhase.running) 6).2.1.map
        Build.completionTimestamp = some (some 6) ∧
      (HandleBuildPodDeletion samplePodEnv (samplePod PodPhase.running) 6).1 = none) ∧
    (HandleBuildPodDeletion c9EnvErr (samplePod PodPhase.running) 6).1 ≠ none := by
  have h1 := C9_pod_loss samplePodEnv (samplePod PodPhase.running)
    (sampleBuild BuildStatus.running) 6 rfl
  have h2 := C9_pod_loss c9EnvErr (samplePod PodPhase.running)
    (sampleBuild BuildStatus.running) 6 rfl
  refine ⟨⟨(h1.2 rfl).1, (h1.2 rfl).2.2.1, (h1.2 rfl).2.2.2.2.2 (fun _ _ => rfl)⟩, ?_⟩
  exact (h2.2 rfl).2.2.2.2.1 "conflict" (fun _ _ => rfl)

/-- CancelBuild either leaves the build untouched or returns it Cancelled with
CompletionTimestamp stamped at now. -/
theorem cancelBuild_untouched_or_stamped (env : PodEnv) (build : Build) (pod : Pod) (now : Nat) :
    (CancelBuild env build pod now).2.1 = build ∨
    ((CancelBuild env build pod now).2.1.status = BuildStatus.cancelled ∧
      (CancelBuild env build pod now).2.1.completionTimestamp = some now) := by
  unfold CancelBuild
  by_cases hc : isBuildCancellable build
  · simp only [hc, not_true, if_false]
    rcases hd : env.deletePod build.nspace pod with _ | _ | e
    · rcases hu : env.update build.nspace (cancelledBuild build now) with _ | m <;>
        simp [hu, cancelledBuild]
    · rcases hu : env.update build.nspace (cancelledBuild build now) with _ | m <;>
        simp [hu, cancelledBuild]
    · simp
  · simp [hc]

/-- A Complete build, already stamped, held in the store for the C1
counterexample. -/
def c1Build : Build :=
  { sampleBuild BuildStatus.complete with completionTimestamp := some 5 }

/-- A pod environment whose store returns the Complete b1. -/
def c1Env : PodEnv :=
  { samplePodEnv with storeGet := fun _ => StoreGetResult.found c1Build }

/-- Claim C1 counterexample: HandlePod moves a build already in the terminal
status Complete back to Running (and persists it) when the correlated pod
reports phase Running — a transition out of a terminal status, refuting the
claim as stated. -/
theorem C1_counterexample :
    IsBuildComplete c1Build = true ∧
    (HandlePod c1Env (samplePod PodPhase.running) 7).2.1.map Build.status =
      some BuildStatus.running ∧
    (HandlePod c1Env (samplePod PodPhase.running) 7).2.2.updates.length = 1 :=
  ⟨rfl, rfl, rfl⟩

/-- Claim C1 (amended): for every build already in a terminal status,
HandleBuild, CancelBuild and HandleBuildPodDeletion never change its status —
each is a no-op returning the build unchanged; HandlePod alone carries no
terminal-status guard and can re-derive a different status from the pod
phase. -/
theorem C1_terminal_guard (aenv : AdmissionEnv) (penv : PodEnv)
    (build : Build) (pod : Pod) (now : Nat)
    (hterm : IsBuildComplete build = true)
    (hget : penv.storeGet pod = StoreGetResult.found build) :
    (HandleBuild aenv build).2.1 = build ∧
    CancelBuild penv build pod now = (none, build, ({} : Effects)) ∧
    HandleBuildPodDeletion penv pod now = (none, some build, ({} : Effects)) := by
  have hnew : build.status ≠ BuildStatus.new := by
    unfold IsBuildComplete at hterm
    cases hb : build.status <;> simp_all
  have hcan : isBuildCancellable build = false := by
    unfold IsBuildComplete at hterm
    unfold isBuildCancellable
    cases hb : build.status <;> simp_all
  refine ⟨?_, ?_, ?_⟩
  · unfold HandleBuild
    simp [hnew]
  · unfold CancelBuild
    simp [hcan]
  · unfold HandleBuildPodDeletion
    rw [hget]
    simp [hterm]

/-- A pod environment whose store returns the Failed b1. -/
def c1wEnv : PodEnv :=
  { samplePodEnv with storeGet := fun _ => StoreGetResult.found (sampleBuild BuildStatus.failed) }

/-- Witness for the amended C1 at a Failed build. -/
theorem C1_witness :
    IsBuildComplete (sampleBuild BuildStatus.failed) = true ∧
    (HandleBuild sampleAdmissionEnv (sampleBuild BuildStatus.failed)).2.1 =
      sampleBuild BuildStatus.failed ∧
    CancelBuild c1wEnv (sampleBuild BuildStatus.failed) (samplePod PodPhase.running) 2 =
      (none, sampleBuild BuildStatus.failed, ({} : Effects)) ∧
    HandleBuildPodDeletion c1wEnv (samplePod PodPhase.running) 2 =
      (none, some (sampleBuild BuildStatus.failed), ({} : Effects)) := by
  have h := C1_terminal_guard sampleAdmissionEnv c1wEnv
    (sampleBuild BuildStatus.failed) (samplePod PodPhase.running) 2 rfl rfl
  exact ⟨rfl, h.1, h.2.1, h.2.2⟩

/-- A New build with the cancellation flag set. -/
def c2Build : Build := { sampleBuild BuildStatus.new with cancelled := true }

/-- Claim C2 counterexample: the admission path moves a New, cancelled build
into the terminal status Cancelled while leaving CompletionTimestamp unset —
a transition into a terminal status that does not assign the timestamp,
refuting the claim as stated. -/
theorem C2_counterexample :
    c2Build.completionTimestamp = none ∧
    (HandleBuild sampleAdmissionEnv c2Build).2.1.status = BuildStatus.cancelled ∧
    IsBuildComplete (HandleBuild sampleAdmissionEnv c2Build).2.1 = true ∧
    (HandleBuild sampleAdmissionEnv c2Build).2.1.completionTimestamp = none :=
  ⟨rfl, rfl, rfl, rfl⟩

/-- Claim C2 (amended): HandlePod, CancelBuild and HandleBuildPodDeletion
stamp CompletionTimestamp at now whenever they change a build's status into a
terminal one, and HandlePod stamps StartTimestamp at now whenever it changes
a build's status into Running; the admission cancellation path, however,
enters Cancelled without stamping (see the counterexample). -/
theorem C2_timestamp_stamping (penv : PodEnv) (pod : Pod) (build : Build) (now : Nat)
    (hget : penv.storeGet pod = StoreGetResult.found build) :
    (∀ b', (HandlePod penv pod now).2.1 = some b' → b'.status ≠ build.status →
        (IsBuildComplete b' = true → b'.completionTimestamp = some now) ∧
        (b'.status = BuildStatus.running → b'.startTimestamp = some now)) ∧
    ((CancelBuild penv build pod now).2.1.status ≠ build.status →
        (CancelBuild penv build pod now).2.1.completionTimestamp = some now) ∧
    (∀ b', (HandleBuildPodDeletion penv pod now).2.1 = some b' → b'.status ≠ build.status →
        b'.completionTimestamp = some now) := by
  refine ⟨?_, ?_, ?_⟩
  · intro b' hb' hne
    unfold HandlePod at hb'
    rw [hget] at hb'
    by_cases hcanc : build.cancelled
    · simp only [hcanc, if_true] at hb'
      have hl := cancelBuild_untouched_or_stamped penv build pod now
      rcases hcb : CancelBuild penv build pod now with ⟨oe, b, eff⟩
      rw [hcb] at hb' hl
      have hbb : b' = b := by
        rcases oe with _ | e <;> simp at hb' <;> exact hb'.symm
      subst hbb
      rcases hl with h | h <;> simp at h
      · exact absurd (by rw [h]) hne
      · refine ⟨fun _ => h.2, fun hr => ?_⟩
        rw [h.1] at hr
        exact absurd hr (by simp)
    · simp only [hcanc, Bool.false_eq_true, if_false] at hb'
      by_cases hchg : build.status = podNextStatus build pod
      · simp only [hchg, ne_eq, not_true, if_false] at hb'
        simp at hb'
        rw [← hb'] at hne
        exact absurd rfl hne
      · simp only [ne_eq, hchg, not_false_iff, if_true] at hb'
        split at hb' <;> simp at hb' <;> rw [← hb'] <;> constructor <;>
          intro hx <;> repeat' split at hx
        all_goals simp_all [IsBuildComplete]
  · intro hne
    rcases cancelBuild_untouched_or_stamped penv build pod now with h | h
    · rw [h] at hne
      exact absurd rfl hne
    · exact h.2
  · intro b' hb' hne
    unfold HandleBuildPodDeletion at hb'
    rw [hget] at hb'
    by_cases hc : IsBuildComplete build = true
    · simp only [hc, if_true] at hb'
      simp at hb'
      rw [← hb'] at hne
      exact absurd rfl hne
    · have hcf : IsBuildComplete build = false := by
        cases hx : IsBuildComplete build
        · rfl
        · exact absurd hx hc
      have hnerr : build.status ≠ BuildStatus.error := by
        unfold IsBuildComplete at hcf
        cases hb : build.status <;> simp_all
      simp only [hcf, Bool.false_eq_true, if_false] at hb'
      simp only [ne_eq, hnerr, not_false_iff, if_true] at hb'
      split at hb' <;> simp at hb' <;> rw [← hb']

/-- The Complete build with the timestamp stamped at 8, as produced by
HandlePod on a succeeded pod for the running b1. -/
def c2wAfter : Build :=
  { sampleBuild BuildStatus.complete with completionTimestamp := some 8 }

/-- Witness for the amended C2: HandlePod moves the Running b1 to Complete on
its succeeded pod and stamps CompletionTimestamp at now. -/
theorem C2_witness :
    (HandlePod samplePodEnv (samplePod PodPhase.succeeded) 8).2.1 = some c2wAfter ∧
    c2wAfter.status ≠ (sampleBuild BuildStatus.running).status ∧
    IsBuildComplete c2wAfter = true ∧
    c2wAfter.completionTimestamp = some 8 := by
  have h := (C2_timestamp_stamping samplePodEnv (samplePod PodPhase.succeeded)
    (sampleBuild BuildStatus.running) 8 rfl).1 c2wAfter rfl (by decide)
  exact ⟨rfl, by decide, rfl, h.1 rfl⟩

end BuildController
